import Mathlib

/-!
Verification development for the `yombo/module-garagedoor` repository
(`src/garagedoor.py`, class `GarageDoor`).

The module is embedded shallowly: each Python handler becomes a Lean
function from an explicit module state (the instance attributes that the
handler reads and writes) to an updated state plus the list of outward
effects it performs, wrapped in `Except String` so that a Python runtime
error (`KeyError`, `TypeError`, ...) on a given path is modelled as
`.error`.  Python dictionaries become functions into `Option`; logging
calls are dropped except where evaluating a logging argument can itself
raise (those raises are kept).  Numeric values are rationals.
-/

namespace GarageDoor

abbrev DevId := String
abbrev MsgId := String

/-- A Python `machine_status` value: the source stores both numbers
(`0`, `1`, `.5`) and configured state strings in this slot, and compares
them with `==`. -/
inductive MStatus
  | num (q : ℚ)
  | str (s : String)
deriving DecidableEq, Repr

/-- The status fields of one device (`status_history[0]` / `status[0]`
in the source).  Only the fields the module reads or writes are kept. -/
structure DStatus where
  machine_status : MStatus := MStatus.num 0
  machine_label : String := ""
  human_status : String := ""
  human_message : String := ""
  status : String := ""
deriving DecidableEq, Repr

/-- A command object (`self._Commands[...]` / `payload\x5b'cmdobj'\x5d`). -/
structure CmdObj where
  cmdUUID : String := ""
  cmd : String := ""
  machine_label : String := ""
  label : String := ""
deriving DecidableEq, Repr

/-- A bus message as consumed by `GarageDoor.message`.  Optional payload
entries (`deviceobj`, `cmdobj`, `status`, `cmdUUID`) are `Option`s; a
`none` where the source subscripts the payload models a `KeyError`. -/
structure BusMessage where
  msgType : String := ""
  msgStatus : String := ""
  msgDestination : String := ""
  msgOrigUUID : MsgId := ""
  msgUUID : MsgId := ""
  deviceobj : Option DevId := none
  cmdobj : Option CmdObj := none
  payloadCmdUUID : Option String := none
  payloadStatus : Option (String × String) := none
  msgStatusExtra : String := ""
deriving DecidableEq, Repr

/-- Entry of `controlRequestsPending` (keyed by garage device id):
the original command message and the msgUUID of the pulse-stop control
message (`messageOrig`). -/
structure PendingEntry where
  message : BusMessage
  messageOrig : MsgId
deriving DecidableEq, Repr

/-- Entry of `requestsMessagesOrig` (keyed by the pulse-stop msgUUID):
the original command message and the garage device id. -/
structure OrigEntry where
  message : BusMessage
  garageDeviceUUID : DevId
deriving DecidableEq, Repr

/-- What a stored `reactor.callLater` handle in `pendingTimers` will do
when it fires. -/
inductive TimerAction
  | sendProcessingAct
  | sendFailedAct
deriving DecidableEq, Repr

/-- A stored timer handle: scheduled delay, its callback, and whether it
is still active (not yet fired or cancelled). -/
structure Timer where
  delay : ℚ
  action : TimerAction
  active : Bool := true
deriving DecidableEq, Repr

/-- Entry of `received_commands` (the dict stored at the top of
`_device_command_`; the `callback` member is omitted). -/
structure ReceivedCmd where
  request_id : MsgId
  device : DevId
  command : CmdObj
deriving DecidableEq, Repr

/-- Per-garage configuration assembled by `_reload_` into
`self.garageDevices\x5bdevice.device_id\x5d` and consumed by the handlers. -/
structure GarageData where
  device : DevId
  closedDevice : DevId
  closedStateClosed : String
  closedStateOpened : String
  controlDevice : DevId
  controlPulseTime : ℚ
  controlPulseStart : String
  controlPulseEnd : String
  autoCloseTime : ℚ
  openDevice : Option DevId := none
  openStateOpened : Option String := none
  autoCloseDisable : Option (DevId × DevId × DevId) := none
  autoCloseAlert : Option (DevId × DevId × DevId × Int × Int) := none
deriving DecidableEq, Repr

/-- The mutable instance attributes of the `GarageDoor` module object.
The source uses two distinct spellings for the pending-request dict:
`self.control_requests_pending` (initialised in `_init_`, checked by
`_device_command_`, never written elsewhere) and
`self.controlRequestsPending` (read and written by `message`); they are
therefore two distinct fields here, and likewise
`garageClosedDevices` / `garageOpenDevices` / `garageInputDevices` are
three distinct sensor-binding maps. -/
structure ModState where
  fullNameLower : String := "yombo.modules.garagedoor"
  labels : DevId → String := fun d => d
  garageCommands : List String := []
  received_commands : MsgId → Option ReceivedCmd := fun _ => none
  garageDevices : DevId → Option GarageData := fun _ => none
  garageClosedDevices : DevId → Option DevId := fun _ => none
  garageOpenDevices : DevId → Option DevId := fun _ => none
  garageInputDevices : DevId → Option DevId := fun _ => none
  control_requests_pending : DevId → Option PendingEntry := fun _ => none
  controlRequestsPending : DevId → Option PendingEntry := fun _ => none
  requestsMessagesOrig : MsgId → Option OrigEntry := fun _ => none
  pendingTimers : MsgId → Option Timer := fun _ => none
  statuses : DevId → DStatus := fun _ => {}

/-- Dictionary insertion (`d\x5bk\x5d = v`). -/
def mapSet {β : Type} (m : String → Option β) (k : String) (v : β) : String → Option β :=
  fun x => if x = k then some v else m x

/-- Dictionary deletion (`del d\x5bk\x5d`). -/
def mapDel {β : Type} (m : String → Option β) (k : String) : String → Option β :=
  fun x => if x = k then none else m x

/-- Outward effects a handler performs (replies, actuator commands,
scheduled sends). -/
inductive Emission
  | deviceCommandFailed (request_id : MsgId) (msg : String)
  | deviceCommandPending (request_id : MsgId) (msg : String)
  | deviceCommandDone (request_id : MsgId) (msg : String)
  | controlCommand (device : DevId) (cmd : String) (delay : Option ℚ)
  | ctlSend (device : DevId) (cmd : String) (msgUUID : MsgId) (delay : Option ℚ)
  | reply (origUUID : MsgId) (msgStatus : String) (msgStatusExtra : String) (textStatus : String)
  | schedule (delay : ℚ) (callback : String) (key : String)
deriving DecidableEq, Repr

/-- Result type of an embedded handler: runtime error, or new module
state plus emissions in program order. -/
abbrev HResult := Except String (ModState × List Emission)

/-- State component of a handler result (with a fallback for `.error`). -/
def exSt (r : HResult) (dflt : ModState) : ModState :=
  match r with
  | .ok (s, _) => s
  | .error _ => dflt

/-- Emission component of a handler result. -/
def exEm (r : HResult) : List Emission :=
  match r with
  | .ok (_, es) => es
  | .error _ => []

/-- True when the handler did not raise. -/
def exOk (r : HResult) : Bool :=
  match r with
  | .ok _ => true
  | .error _ => false

/-- Embedding of `GarageDoor.deleteTimer` (src/garagedoor.py 513-517):
if a timer is stored under `timerid` and still active, cancel it and
remove the entry; an inactive stored timer is left in place (the `del`
sits inside the `active()` branch), and a missing entry is a no-op. -/
def deleteTimer (s : ModState) (timerid : MsgId) : ModState :=
  match s.pendingTimers timerid with
  | some t =>
    if t.active then { s with pendingTimers := mapDel s.pendingTimers timerid } else s
  | none => s

/-- Embedding of `GarageDoor.cleanUpcontrolRequestsPending` (519-521). -/
def cleanUpcontrolRequestsPending (s : ModState) (itemID : DevId) : ModState :=
  if (s.controlRequestsPending itemID).isSome then
    { s with controlRequestsPending := mapDel s.controlRequestsPending itemID }
  else s

/-- Embedding of `GarageDoor.cleanUprequestsMessagesOrig` (523-525). -/
def cleanUprequestsMessagesOrig (s : ModState) (itemID : MsgId) : ModState :=
  if (s.requestsMessagesOrig itemID).isSome then
    { s with requestsMessagesOrig := mapDel s.requestsMessagesOrig itemID }
  else s

/-- Embedding of `GarageDoor.sendProcessing` (490-497): look up the
original message for `msgUUID` (`KeyError` if absent), reply
"processing" (kwargs override the defaults), cancel the stored timer,
and arm a fresh 60 second `sendFailed` timer under the same key. -/
def sendProcessing (s : ModState) (msgUUID : MsgId)
    (kwStatus kwExtra : Option String) : HResult :=
  match s.requestsMessagesOrig msgUUID with
  | none => .error "KeyError: requestsMessagesOrig"
  | some oe =>
    let e : Emission := .reply oe.message.msgUUID (kwStatus.getD "processing")
      (kwExtra.getD "Command sent to garage door controller, pending results.") ""
    let s1 := deleteTimer s msgUUID
    let s2 :=
      { s1 with pendingTimers := mapSet s1.pendingTimers msgUUID ⟨60, TimerAction.sendFailedAct, true⟩ }
    .ok (s2, [e])

/-- Embedding of `GarageDoor.sendFailed` (499-511): look up the original
message (`KeyError` if absent), read its `deviceobj` (`KeyError` if the
payload lacks it), delete the `controlRequestsPending` entry for the
recorded garage device when present, delete the `requestsMessagesOrig`
entry, cancel the stored timer, then reply "failed". -/
def sendFailed (s : ModState) (msgUUID : MsgId)
    (kwStatus kwExtra : Option String) : HResult :=
  match s.requestsMessagesOrig msgUUID with
  | none => .error "KeyError: requestsMessagesOrig"
  | some oe =>
    match oe.message.deviceobj with
    | none => .error "KeyError: deviceobj"
    | some _ =>
      let s1 :=
        if (s.controlRequestsPending oe.garageDeviceUUID).isSome then
          { s with controlRequestsPending := mapDel s.controlRequestsPending oe.garageDeviceUUID }
        else s
      let s2 :=
        { s1 with requestsMessagesOrig := mapDel s1.requestsMessagesOrig msgUUID }
      let s3 := deleteTimer s2 msgUUID
      .ok (s3, [Emission.reply oe.message.msgUUID (kwStatus.getD "failed")
        (kwExtra.getD "Command sent to garage door controller, however, garage never reported a status change.") ""])

/-- Embedding of `GarageDoor._set_status` (257-265): machine status 1
for an "open" command, 0 otherwise; sets the human fields from the
command labels. -/
def _set_status (s : ModState) (device : DevId) (command : CmdObj) : ModState :=
  let machine_status : MStatus :=
    if command.machine_label = "open" then MStatus.num 1 else MStatus.num 0
  { s with statuses := fun d =>
      if d = device then
        { s.statuses device with
          machine_status := machine_status,
          human_status := command.label,
          human_message := "The garage is: " ++ command.label }
      else s.statuses d }

/-- Embedding of `GarageDoor._device_command_` (267-306).  Steps, in
source order: return silently when the device is not in `garageDevices`
(273-275); store the request into `received_commands` (282-287); if the
device id is in `control_requests_pending`, the `logger.info` argument
`self.control_requests_pending\x5brequest_id\x5d` is evaluated first and
raises `KeyError` unless `request_id` happens to be a key, otherwise the
command fails with "Pending already in progress." (289-293); if the
closed sensor's `machine_label` differs from the command's, pulse the
control device (start immediately, end after `controlPulseTime` ms) and
reply pending (297-302); else reply done and fake the status via
`_set_status` (304-306).  Note that this handler never writes
`control_requests_pending`. -/
def _device_command_ (s : ModState) (device : DevId) (request_id : MsgId)
    (command : CmdObj) : HResult :=
  match s.garageDevices device with
  | none => .ok (s, [])
  | some garage_info =>
    let s1 :=
      { s with received_commands := mapSet s.received_commands request_id ⟨request_id, device, command⟩ }
    if (s1.control_requests_pending device).isSome then
      match s1.control_requests_pending request_id with
      | none => .error "KeyError: control_requests_pending"
      | some _ => .ok (s1, [Emission.deviceCommandFailed request_id "Pending already in progress."])
    else
      if (s1.statuses garage_info.closedDevice).machine_label ≠ command.machine_label then
        .ok (s1,
          [Emission.controlCommand garage_info.controlDevice garage_info.controlPulseStart none,
           Emission.controlCommand garage_info.controlDevice garage_info.controlPulseEnd
             (some (garage_info.controlPulseTime * (1 / 1000))),
           Emission.deviceCommandPending request_id "Moving garage "])
      else
        .ok (_set_status s1 device command,
          [Emission.deviceCommandDone request_id "Garage door already in requested position."])

/-- Embedding of `GarageDoor._device_status_` (308-324): every branch of
the source only logs; the handler looks up `garageClosedDevices` and,
when bound, reads `garageDevices` (`KeyError` if the garage vanished)
but changes no state and emits nothing. -/
def _device_status_ (s : ModState) (input_device : DevId) : HResult :=
  match s.garageClosedDevices input_device with
  | none => .ok (s, [])
  | some gid =>
    match s.garageDevices gid with
    | none => .error "KeyError: garageDevices"
    | some _ => .ok (s, [])

/-- Embedding of `GarageDoor.set_garage_door_status` (199-241).  The
source saves `garage_state` (the virtual device's `machine_status`),
selects the closed/open sensor pair (the closed sensor doubling as the
open sensor with `closedStateOpened` when no open device is configured,
210-219), and then attempts three `local_set_status` pushes.  Every
call site passes `garage_state\x5b'device'\x5d` as the device, i.e. it
subscripts the saved machine-status value, which raises `TypeError` in
Python; so each branch that goes on to push a status update is an
`.error` here.  Crucially the first two pushes are guarded by both the
sensor match and `garage_state` differing, there is no early return
when a sensor matches but the status already agrees, and the final
0.5 push (237-239) is unconditional. -/
def set_garage_door_status (s : ModState) (device_id : DevId) : HResult :=
  match s.garageDevices device_id with
  | none => .error "KeyError: garageDevices"
  | some garage =>
    let garage_state := (s.statuses garage.device).machine_status
    let sensors : Except String (DevId × DevId × String × String) :=
      match garage.openDevice with
      | some od =>
        match garage.openStateOpened with
        | some os => .ok (garage.closedDevice, od, garage.closedStateClosed, os)
        | none => .error "KeyError: openStateOpened"
      | none =>
        .ok (garage.closedDevice, garage.closedDevice, garage.closedStateClosed,
          garage.closedStateOpened)
    match sensors with
    | .error e => .error e
    | .ok (closed_device, open_device, closed_state, open_state) =>
      if (s.statuses closed_device).machine_status = MStatus.str closed_state ∧
          garage_state ≠ MStatus.str closed_state then
        .error "TypeError: garage_state subscripted with the key device"
      else if (s.statuses open_device).machine_status = MStatus.str open_state ∧
          garage_state ≠ MStatus.str open_state then
        .error "TypeError: garage_state subscripted with the key device"
      else
        .error "TypeError: garage_state subscripted with the key device"

/-- Embedding of `GarageDoor.message` (327-488).  Branches, in source
order: the status branch (347-373); the destination filter (377-379);
the two command filters (384-391); the command-return branch (396-428);
the new-command branch (431-488).  `ctl1UUID`/`ctl2UUID` are the
bus-assigned msgUUIDs of the pulse-start/pulse-stop control messages
created by `controlDevice.get_message` in the new-command branch. -/
def message (s : ModState) (m : BusMessage) (ctl1UUID ctl2UUID : MsgId) : HResult :=
  -- line 347: `message.msgType == 'status' and payload['deviceobj'].device_id in self.garageInputDevices`
  match
    (if m.msgType = "status" then
      match m.deviceobj with
      | none => Except.error "KeyError: deviceobj"
      | some d => Except.ok (s.garageInputDevices d)
    else Except.ok none : Except String (Option DevId)) with
  | .error e => .error e
  | .ok (some garageDeviceUUID) =>
    -- status branch, 348-373
    match s.garageDevices garageDeviceUUID with
    | none => .error "KeyError: garageDevices"
    | some garage =>
      let garageDevice := garage.device
      match m.payloadStatus with
      | none => .error "KeyError: status"
      | some stp =>
        let newStatuses := fun d =>
          if d = garageDevice then { s.statuses garageDevice with status := stp.1 }
          else s.statuses d
        let s1 := { s with statuses := newStatuses }
        match s1.controlRequestsPending garageDeviceUUID with
        | none => .ok (s1, [])
        | some pend =>
          let textStatus :=
            if stp.1 = "open" then s1.labels garageDevice ++ " is now open."
            else s1.labels garageDevice ++ " is now closed."
          let e1 : Emission := .reply pend.message.msgUUID "done" stp.1 textStatus
          -- 369-372 re-index the dict with `garageDevice.device_id`
          match s1.controlRequestsPending garageDevice with
          | none => .error "KeyError: controlRequestsPending"
          | some pend2 =>
            let s2 := deleteTimer s1 pend2.messageOrig
            match s2.controlRequestsPending garageDevice with
            | none => .error "KeyError: controlRequestsPending"
            | some pend3 =>
              let s3 :=
                if (s2.requestsMessagesOrig pend3.messageOrig).isSome then
                  { s2 with requestsMessagesOrig := mapDel s2.requestsMessagesOrig pend3.messageOrig }
                else s2
              let s4 :=
                { s3 with controlRequestsPending := mapDel s3.controlRequestsPending garageDevice }
              .ok (s4, [e1])
  | .ok none =>
    -- line 377: destination filter
    if m.msgDestination ≠ s.fullNameLower then .ok (s, [])
    else
      -- lines 384-391: discard unknown commands / unmanaged devices
      match
        (match m.cmdobj with
         | some c =>
           if ¬ s.garageCommands.contains c.cmdUUID then Except.ok true
           else
             match m.deviceobj with
             | none => Except.error "KeyError: deviceobj"
             | some d =>
               if (s.garageDevices d).isNone then Except.ok true else Except.ok false
         | none => Except.ok false : Except String Bool) with
      | .error e => .error e
      | .ok true => .ok (s, [])
      | .ok false =>
        -- lines 396-428: command returns
        if m.msgType = "cmd" ∧ m.msgStatus ≠ "new" then
          match s.requestsMessagesOrig m.msgOrigUUID with
          | none => .ok (s, [])
          | some oe =>
            let origMsg := oe.message
            if m.msgStatus = "done" ∨ m.msgStatus = "processing" then
              -- 401-412: forward only a processing reply
              match origMsg.payloadCmdUUID with
              | none => .error "KeyError: cmdUUID"
              | some cu =>
                let kwExtra : Option String :=
                  if cu = "dhPt1CzzjDjEfTddtpiJSKKe" then some "opening garage"
                  else if cu = "x8mXp46JIXkEdYFZ5lUEtw1L" then some "closing garage"
                  else none
                sendProcessing s m.msgOrigUUID (some "processing") kwExtra
            else
              -- 415-428: a failure return resolves the request
              let s1 := deleteTimer s m.msgOrigUUID
              let e : Emission := .reply origMsg.msgUUID m.msgStatus m.msgStatusExtra ""
              let s2 := deleteTimer s1 m.msgOrigUUID
              let s3 :=
                if (s2.controlRequestsPending oe.garageDeviceUUID).isSome then
                  { s2 with controlRequestsPending := mapDel s2.controlRequestsPending oe.garageDeviceUUID }
                else s2
              let s4 :=
                { s3 with requestsMessagesOrig := mapDel s3.requestsMessagesOrig m.msgOrigUUID }
              .ok (s4, [e])
        else
          -- lines 431-488: new commands
          if m.msgType = "cmd" ∧ m.msgStatus = "new" then
            match m.deviceobj with
            | none => .error "KeyError: deviceobj"
            | some gdUUID =>
              match s.garageDevices gdUUID with
              | none => .error "KeyError: garageDevices"
              | some garage =>
                let garageDevice := garage.device
                if (s.controlRequestsPending garageDevice).isSome then
                  -- 440-442: the reply is built but `reply.send` is never
                  -- called (no parentheses), so nothing is emitted
                  .ok (s, [])
                else
                  match m.cmdobj with
                  | none => .error "KeyError: cmdobj"
                  | some c =>
                    if c.cmd = (s.statuses garageDevice).status then
                      -- 444-456: already in requested position
                      let action :=
                        if (s.statuses garageDevice).status = "open" then "open" else "closed"
                      let output :=
                        s.labels garageDevice ++ " already " ++ action ++ ", nothing to do."
                      .ok (s, [Emission.reply m.msgUUID "done" output output])
                    else
                      -- 461-488: register the pending request, then pulse
                      let s1 :=
                        { s with controlRequestsPending := mapSet s.controlRequestsPending garageDevice ⟨m, ctl2UUID⟩ }
                      let s2 :=
                        { s1 with requestsMessagesOrig := mapSet s1.requestsMessagesOrig ctl2UUID ⟨m, garageDevice⟩ }
                      let s3 :=
                        { s2 with pendingTimers := mapSet s2.pendingTimers ctl2UUID ⟨99 / 100, TimerAction.sendProcessingAct, true⟩ }
                      .ok (s3,
                        [Emission.ctlSend garage.controlDevice garage.controlPulseStart ctl1UUID none,
                         Emission.ctlSend garage.controlDevice garage.controlPulseEnd ctl2UUID
                           (some (garage.controlPulseTime * (1 / 1000))),
                         Emission.schedule 1200 "cleanUpcontrolRequestsPending" garageDevice,
                         Emission.schedule 1200 "cleanUprequestsMessagesOrig" ctl2UUID])
          else .ok (s, [])

/-- A configuration variable value as seen by `_reload_`.  `num q`
stands for the Python values that `float(...)` converts successfully
(numbers and numeric strings); `str v` stands for the values on which
`float(...)` raises (such as "abc"). -/
inductive Val
  | num (q : ℚ)
  | str (v : String)
deriving DecidableEq, Repr

/-- The `float(...)` conversion used at lines 107 and 119. -/
def Val.toFloat : Val → Option ℚ
  | Val.num q => some q
  | Val.str _ => none

/-- The per-device configuration rows consumed by `_reload_`
(`device.device_variables()`).  Fields the source subscripts without a
surrounding try/except are plain values; fields whose absence is caught
by a try/except are `Option`s. -/
structure DeviceVars where
  device_id : DevId
  label : String := ""
  controlpulsestart : String := ""
  controlpulseend : String := ""
  controlpulsetime : Val := Val.num 0
  autoclosetime : Val := Val.num 0
  closeddevice : Option String := none
  closedstateclosed : String := ""
  closedstateopened : String := ""
  controldevice : String := ""
  opendevice : Option String := none
  openstateopened : Option String := none
  autoCloseDisableDevice : Option String := none
  autoCloseDisableDeviceEnabledState : Option String := none
  autoCloseDisableDeviceDisabledState : Option String := none
  autoCloseAlertDevice : Option String := none
  autoCloseAlertStartCommand : Option String := none
  autoCloseAlertEndCommand : Option String := none
deriving DecidableEq, Repr

/-- Embedding of the per-device body of `GarageDoor._reload_` (94-189).
`validate_command` is `device.validate_command` and `_Devices` is the
gateway's device lookup `self._Devices\x5b...\x5d`, both external.  A
`none` result is the source's `continue` (the device is skipped); a
`some` result is the `garage_data` dict registered into
`garageDevices`.  Skips, in source order: unvalidatable pulse-start
(96-100), unvalidatable pulse-end (101-105), non-numeric pulse time
(106-110), non-positive pulse time (112-116), non-numeric auto-close
time (118-122), missing closed device (124-130).  The open-device try
block (144-151) always ends with `openDevice = None`: even when lines
145-146 succeed, line 147 subscripts `garage_data` with the misspelled
key `opendevice` (the dict key is `openDevice`), raising `KeyError`
inside the same try, whose handler overwrites `openDevice` with `None`;
`openStateOpened` keeps the value line 146 assigned when it was
reached.  The auto-close disable/alert try blocks (153-184) fall back
to `None` on any missing piece and can never skip the device; the
alert before/after times apply `int(...)` to a device object, which
always raises `TypeError`, so they always take the defaults 30 and
10. -/
def reload_device (validate_command : String → Bool) (_Devices : String → Option DevId)
    (dv : DeviceVars) : Option GarageData :=
  if validate_command dv.controlpulsestart = false then none
  else if validate_command dv.controlpulseend = false then none
  else
    match dv.controlpulsetime.toFloat with
    | none => none
    | some controlPulseTime =>
      if controlPulseTime ≤ 0 then none
      else
        match dv.autoclosetime.toFloat with
        | none => none
        | some autoCloseTime =>
          match dv.closeddevice.bind _Devices with
          | none => none
          | some closed_device =>
            let openAttempt : Option String :=
              match dv.opendevice.bind _Devices with
              | some _ => dv.openstateopened
              | none => none
            let autoCloseDisable : Option (DevId × DevId × DevId) :=
              match dv.autoCloseDisableDevice.bind _Devices,
                  dv.autoCloseDisableDeviceEnabledState.bind _Devices,
                  dv.autoCloseDisableDeviceDisabledState.bind _Devices with
              | some a, some b, some c => some (a, b, c)
              | _, _, _ => none
            let autoCloseAlert : Option (DevId × DevId × DevId × Int × Int) :=
              match dv.autoCloseAlertDevice.bind _Devices,
                  dv.autoCloseAlertStartCommand.bind _Devices,
                  dv.autoCloseAlertEndCommand.bind _Devices with
              | some a, some b, some c => some (a, b, c, 30, 10)
              | _, _, _ => none
            some
              { device := dv.device_id
                closedDevice := closed_device
                closedStateClosed := dv.closedstateclosed
                closedStateOpened := dv.closedstateopened
                controlDevice := dv.controldevice
                controlPulseTime := controlPulseTime
                controlPulseStart := dv.controlpulsestart
                controlPulseEnd := dv.controlpulseend
                autoCloseTime := autoCloseTime
                openDevice := none
                openStateOpened := openAttempt
                autoCloseDisable := autoCloseDisable
                autoCloseAlert := autoCloseAlert }

/-- One iteration of the `_reload_` loop: register the device when its
configuration validates (186-187), otherwise leave the state as the
`continue` statements do. -/
def reload_step (validate_command : String → Bool) (_Devices : String → Option DevId)
    (st : ModState) (dv : DeviceVars) : ModState :=
  match reload_device validate_command _Devices dv with
  | none => st
  | some gd =>
    { st with
      garageDevices := mapSet st.garageDevices dv.device_id gd,
      garageClosedDevices := mapSet st.garageClosedDevices gd.closedDevice dv.device_id }

/-- Embedding of the `_reload_` loop (94, 186-187): each device that
`reload_device` accepts is registered into `garageDevices` under its
device id and into `garageClosedDevices` under its closed sensor's id;
a skipped device leaves the state untouched. -/
def _reload_ (validate_command : String → Bool) (_Devices : String → Option DevId)
    (devs : List DeviceVars) (s : ModState) : ModState :=
  devs.foldl (reload_step validate_command _Devices) s

/-- Spec-side admission condition for a configured device, written from
the amended wording of the configuration-surface sentence: a device is
skipped exactly when a required field is invalid, where the required
fields are the two pulse commands, the pulse time (numeric and
positive), the auto-close time (numeric), and the closed sensor. -/
def reload_skip_condition (validate_command : String → Bool)
    (_Devices : String → Option DevId) (dv : DeviceVars) : Bool :=
  !validate_command dv.controlpulsestart || !validate_command dv.controlpulseend ||
    (match dv.controlpulsetime.toFloat with
     | none => true
     | some t => decide (t ≤ 0)) ||
    (dv.autoclosetime.toFloat).isNone || (dv.closeddevice.bind _Devices).isNone

/-! ## Concrete fixtures used by the counterexample and witness theorems -/

/-- An "open" command object. -/
def cmdOpen : CmdObj :=
  { cmdUUID := "cmd-open", cmd := "open", machine_label := "open", label := "Open" }

/-- A "close" command object. -/
def cmdClose : CmdObj :=
  { cmdUUID := "cmd-close", cmd := "close", machine_label := "close", label := "Close" }

/-- A garage configuration bound to closed sensor `cs1` and control
relay `ctl1`, with no open sensor. -/
def garageG1 : GarageData :=
  { device := "gd1", closedDevice := "cs1", closedStateClosed := "closed",
    closedStateOpened := "opened", controlDevice := "ctl1", controlPulseTime := 500,
    controlPulseStart := "pulse_on", controlPulseEnd := "pulse_off", autoCloseTime := 300 }

/-- Module state with `gd1` registered and its closed sensor reporting
`closed`; no request is pending anywhere. -/
def stateC1 : ModState :=
  { garageCommands := ["cmd-open", "cmd-close"],
    garageDevices := fun d => if d = "gd1" then some garageG1 else none,
    garageClosedDevices := fun d => if d = "cs1" then some "gd1" else none,
    statuses := fun d => if d = "cs1" then { machine_label := "closed" } else {} }

/-- Claim C1: for every accepted command, the Tracker's begin registers
the PendingRequest keyed by the device id before the pulse-start is
sent, so a second command for the same device is rejected by admission.
This fails on the `_device_command_` hook: it sends the two pulse
commands without ever writing `control_requests_pending`, so a second
identical command is admitted and re-pulses the relay, and both pending
maps are still empty afterwards. -/
theorem claim_c1_second_command_repulses :
    exEm (_device_command_ stateC1 "gd1" "r1" cmdOpen) =
      [Emission.controlCommand "ctl1" "pulse_on" none,
       Emission.controlCommand "ctl1" "pulse_off" (some (garageG1.controlPulseTime * (1 / 1000))),
       Emission.deviceCommandPending "r1" "Moving garage "] ∧
    exEm (_device_command_ (exSt (_device_command_ stateC1 "gd1" "r1" cmdOpen) stateC1)
        "gd1" "r2" cmdOpen) =
      [Emission.controlCommand "ctl1" "pulse_on" none,
       Emission.controlCommand "ctl1" "pulse_off" (some (garageG1.controlPulseTime * (1 / 1000))),
       Emission.deviceCommandPending "r2" "Moving garage "] ∧
    (exSt (_device_command_ (exSt (_device_command_ stateC1 "gd1" "r1" cmdOpen) stateC1)
        "gd1" "r2" cmdOpen) stateC1).control_requests_pending "gd1" = none ∧
    (exSt (_device_command_ (exSt (_device_command_ stateC1 "gd1" "r1" cmdOpen) stateC1)
        "gd1" "r2" cmdOpen) stateC1).controlRequestsPending "gd1" = none := by
  exact ⟨rfl, rfl, rfl, rfl⟩

/-- The original "open" command message that created the pending
request tracked under correlation id `corrA` in `statePending`. -/
def origMsgA : BusMessage :=
  { msgType := "cmd", msgStatus := "new", msgDestination := "yombo.modules.garagedoor",
    msgUUID := "orig-a", deviceobj := some "gd1", cmdobj := some cmdOpen,
    payloadCmdUUID := some "x8mXp46JIXkEdYFZ5lUEtw1L" }

/-- Module state with a request for `gd1` pending: `controlRequestsPending`
and `requestsMessagesOrig` are linked through correlation id `corrA`,
and a 17 second `sendFailed` hard-timeout timer is armed for it. -/
def statePending : ModState :=
  { garageCommands := ["cmd-open", "cmd-close"],
    garageDevices := fun d => if d = "gd1" then some garageG1 else none,
    garageClosedDevices := fun d => if d = "cs1" then some "gd1" else none,
    garageInputDevices := fun d => if d = "cs1" then some "gd1" else none,
    controlRequestsPending := fun d => if d = "gd1" then some ⟨origMsgA, "corrA"⟩ else none,
    requestsMessagesOrig := fun k => if k = "corrA" then some ⟨origMsgA, "gd1"⟩ else none,
    pendingTimers := fun k => if k = "corrA" then some ⟨17, TimerAction.sendFailedAct, true⟩ else none,
    statuses := fun d => if d = "cs1" then { machine_label := "closed" } else {} }

/-- A second "open" command for `gd1` arriving on the message bus while
`statePending` already tracks a request for `gd1`. -/
def msgNewWhilePending : BusMessage :=
  { msgType := "cmd", msgStatus := "new", msgDestination := "yombo.modules.garagedoor",
    msgUUID := "m-new2", deviceobj := some "gd1", cmdobj := some cmdOpen }

/-- Claim C2: a command arriving while a PendingRequest exists for the
same device returns an AlreadyPending failure synchronously, performs
no actuation, and mutates no state.  The no-actuation and no-mutation
parts hold, but no failure reply ever reaches the caller: line 441
reads `reply.send` without calling it, so the handler returns with an
empty emission list and the state it was given. -/
theorem claim_c2_already_pending_reply_never_sent :
    message statePending msgNewWhilePending "x1" "x2" = .ok (statePending, []) := by
  rfl

/-- Module state for the Reconciler: `gd1` registered, its closed
sensor reporting the configured closed value, and the virtual device's
status already equal to it (the repeated-identical-readings case). -/
def stateC6 : ModState :=
  { garageDevices := fun d => if d = "gd1" then some garageG1 else none,
    statuses := fun d =>
      if d = "cs1" then { machine_status := MStatus.str "closed" }
      else if d = "gd1" then { machine_status := MStatus.str "closed" }
      else {} }

/-- Claim C6: the Status Reconciler pushes a StatusUpdate only when the
computed label differs from the virtual device's last-set status, so
repeated identical readings emit nothing.  In the code, when the
closed sensor matches and the status already agrees, control falls
through both guarded branches (the early returns are inside the
difference tests) to an unconditional `local_set_status(..., .5)`; and
that call — like every `local_set_status` call site in the function —
passes `garage_state\x5b'device'\x5d`, subscripting the saved
machine-status value, a `TypeError`.  So instead of idempotently doing
nothing, a second identical run attempts a 0.5 status push and
crashes. -/
theorem claim_c6_repeated_readings_still_push :
    set_garage_door_status stateC6 "gd1" =
      .error "TypeError: garage_state subscripted with the key device" := by
  rfl

/-- Reconciler state where the closed sensor matches the configured
closed value but the virtual device's status still differs (position
0 as a number), so the claim expects a Closed push with position 0. -/
def stateC8 : ModState :=
  { garageDevices := fun d => if d = "gd2" then some
      { garageG1 with device := "gd2", closedDevice := "cs2" } else none,
    statuses := fun d =>
      if d = "cs2" then { machine_status := MStatus.str "closed" }
      else {} }

/-- Claim C8: the Reconciler evaluates closed before open with first
match winning, yielding Closed with position 0 on a closed match, and
on no match leaves the position at its previous value.  In the code
the very branch the claim describes — closed sensor matching while the
device status differs — raises `TypeError`, because the status push
passes `garage_state\x5b'device'\x5d` (the saved machine-status value,
written where the device object was meant), so no label or position is
ever produced; and the no-match case does not keep the previous
position but unconditionally attempts to set 0.5 (and crashes the same
way). -/
theorem claim_c8_closed_match_raises :
    set_garage_door_status stateC8 "gd2" =
      .error "TypeError: garage_state subscripted with the key device" := by
  rfl

/-! ## Frame lemmas for `deleteTimer` -/

/-- Cancelling a timer never touches `controlRequestsPending`. -/
theorem deleteTimer_controlRequestsPending (s : ModState) (k : MsgId) :
    (deleteTimer s k).controlRequestsPending = s.controlRequestsPending := by
  unfold deleteTimer
  cases s.pendingTimers k with
  | none => rfl
  | some t => by_cases h : t.active <;> simp [h]

/-- Cancelling a timer never touches `requestsMessagesOrig`. -/
theorem deleteTimer_requestsMessagesOrig (s : ModState) (k : MsgId) :
    (deleteTimer s k).requestsMessagesOrig = s.requestsMessagesOrig := by
  unfold deleteTimer
  cases s.pendingTimers k with
  | none => rfl
  | some t => by_cases h : t.active <;> simp [h]

/-- Cancelling a timer never touches the device statuses. -/
theorem deleteTimer_statuses (s : ModState) (k : MsgId) :
    (deleteTimer s k).statuses = s.statuses := by
  unfold deleteTimer
  cases s.pendingTimers k with
  | none => rfl
  | some t => by_cases h : t.active <;> simp [h]

/-- An active stored timer is gone after `deleteTimer` on its key. -/
theorem deleteTimer_pendingTimers_self (s : ModState) (k : MsgId) (t : Timer)
    (hs : s.pendingTimers k = some t) (ha : t.active = true) :
    (deleteTimer s k).pendingTimers k = none := by
  unfold deleteTimer
  simp [hs, ha, mapDel]

/-- A status message for a bound input sensor arriving while a request
is pending: the label `closed` does not match the pending command's
target `open`. -/
def msgStatusClosed : BusMessage :=
  { msgType := "status", msgUUID := "m-status", deviceobj := some "cs1",
    payloadStatus := some ("closed", "xs") }

/-- Claim C3 counterexample: in `statePending` the pending command is
`open`, and a status event reconciling to `closed` (not the target)
arrives.  The claim says the request must remain pending with no Done
reply; the code replies `done` anyway and removes the PendingRequest
and its CorrelationIndex entry. -/
theorem claim_c3_counterexample :
    exEm (message statePending msgStatusClosed "x1" "x2") =
      [Emission.reply "orig-a" "done" "closed" "gd1 is now closed."] ∧
    (exSt (message statePending msgStatusClosed "x1" "x2") statePending).controlRequestsPending "gd1" = none ∧
    (exSt (message statePending msgStatusClosed "x1" "x2") statePending).requestsMessagesOrig "corrA" = none := by
  exact ⟨rfl, rfl, rfl⟩

/-- Claim C3 (amended): when a sensor status event for a bound input
device is processed while a PendingRequest exists for that device, the
Tracker replies Done regardless of whether the new label matches the
command's requested target state; it cancels the pending timer, and
removes the PendingRequest and its CorrelationIndex entry. -/
theorem claim_c3_status_resolves_unconditionally (s : ModState) (m : BusMessage)
    (c1 c2 : MsgId) (sid gd : DevId) (g : GarageData) (pend : PendingEntry)
    (st ex : String)
    (hType : m.msgType = "status") (hDev : m.deviceobj = some sid)
    (hBind : s.garageInputDevices sid = some gd)
    (hGar : s.garageDevices gd = some g) (hSelf : g.device = gd)
    (hPay : m.payloadStatus = some (st, ex))
    (hPend : s.controlRequestsPending gd = some pend) :
    exOk (message s m c1 c2) = true ∧
    exEm (message s m c1 c2) =
      [Emission.reply pend.message.msgUUID "done" st
        (if st = "open" then s.labels gd ++ " is now open."
         else s.labels gd ++ " is now closed.")] ∧
    (exSt (message s m c1 c2) s).controlRequestsPending gd = none ∧
    (exSt (message s m c1 c2) s).requestsMessagesOrig pend.messageOrig = none ∧
    (∀ t, s.pendingTimers pend.messageOrig = some t → t.active = true →
      (exSt (message s m c1 c2) s).pendingTimers pend.messageOrig = none) ∧
    ((exSt (message s m c1 c2) s).statuses gd).status = st := by
  unfold message
  refine ⟨?_, ?_, ?_, ?_, ?_, ?_⟩ <;>
    simp [hType, hDev, hBind, hGar, hPay, hSelf, hPend, exOk, exEm, exSt,
      deleteTimer_controlRequestsPending, deleteTimer_requestsMessagesOrig,
      deleteTimer_statuses, mapDel]
  · rcases hR : s.requestsMessagesOrig pend.messageOrig with _ | oe <;>
      simp [hR, mapDel, deleteTimer_requestsMessagesOrig]
  · intro t ht ha
    split <;> simp [deleteTimer, ht, ha, mapDel]
  · split <;> simp [deleteTimer_statuses]

/-- Witness instantiating the amended C3 theorem on `statePending` with
the non-matching status label `closed`. -/
theorem claim_c3_status_resolves_unconditionally_witness :
    exOk (message statePending msgStatusClosed "x1" "x2") = true ∧
    exEm (message statePending msgStatusClosed "x1" "x2") =
      [Emission.reply "orig-a" "done" "closed"
        (if ("closed" : String) = "open" then statePending.labels "gd1" ++ " is now open."
         else statePending.labels "gd1" ++ " is now closed.")] ∧
    (exSt (message statePending msgStatusClosed "x1" "x2") statePending).controlRequestsPending "gd1" = none ∧
    (exSt (message statePending msgStatusClosed "x1" "x2") statePending).requestsMessagesOrig "corrA" = none ∧
    (∀ t, statePending.pendingTimers "corrA" = some t → t.active = true →
      (exSt (message statePending msgStatusClosed "x1" "x2") statePending).pendingTimers "corrA" = none) ∧
    ((exSt (message statePending msgStatusClosed "x1" "x2") statePending).statuses "gd1").status = "closed" :=
  claim_c3_status_resolves_unconditionally statePending msgStatusClosed "x1" "x2" "cs1" "gd1"
    garageG1 ⟨origMsgA, "corrA"⟩ "closed" "xs" rfl rfl rfl rfl rfl rfl rfl

/-- Claim C4: resolution of a PendingRequest through any of the three
paths — sensor confirmation (status branch of `message`), bus-reported
command failure (failure return branch of `message`), or hard timeout
(`sendFailed`) — removes both the PendingRequest entry (keyed by the
device id) and its CorrelationIndex entry (keyed by the pulse-stop
correlation id), and leaves every other entry of both maps unchanged,
so both maps return to their pre-command contents. -/
theorem claim_c4_resolution_cleans_both_maps :
    (∀ (s : ModState) (m : BusMessage) (c1 c2 : MsgId) (sid gd : DevId)
        (g : GarageData) (pend : PendingEntry) (st ex : String),
      m.msgType = "status" → m.deviceobj = some sid →
      s.garageInputDevices sid = some gd → s.garageDevices gd = some g →
      g.device = gd → m.payloadStatus = some (st, ex) →
      s.controlRequestsPending gd = some pend →
      (exSt (message s m c1 c2) s).controlRequestsPending gd = none ∧
      (exSt (message s m c1 c2) s).requestsMessagesOrig pend.messageOrig = none ∧
      (∀ d, d ≠ gd →
        (exSt (message s m c1 c2) s).controlRequestsPending d = s.controlRequestsPending d) ∧
      (∀ k, k ≠ pend.messageOrig →
        (exSt (message s m c1 c2) s).requestsMessagesOrig k = s.requestsMessagesOrig k)) ∧
    (∀ (s : ModState) (m : BusMessage) (c1 c2 : MsgId) (oe : OrigEntry),
      m.msgType = "cmd" → m.msgDestination = s.fullNameLower → m.cmdobj = none →
      m.msgStatus ≠ "new" → m.msgStatus ≠ "done" → m.msgStatus ≠ "processing" →
      s.requestsMessagesOrig m.msgOrigUUID = some oe →
      (exSt (message s m c1 c2) s).requestsMessagesOrig m.msgOrigUUID = none ∧
      (exSt (message s m c1 c2) s).controlRequestsPending oe.garageDeviceUUID = none ∧
      (∀ d, d ≠ oe.garageDeviceUUID →
        (exSt (message s m c1 c2) s).controlRequestsPending d = s.controlRequestsPending d) ∧
      (∀ k, k ≠ m.msgOrigUUID →
        (exSt (message s m c1 c2) s).requestsMessagesOrig k = s.requestsMessagesOrig k)) ∧
    (∀ (s : ModState) (corr : MsgId) (oe : OrigEntry) (d0 : DevId),
      s.requestsMessagesOrig corr = some oe → oe.message.deviceobj = some d0 →
      (exSt (sendFailed s corr none none) s).requestsMessagesOrig corr = none ∧
      (exSt (sendFailed s corr none none) s).controlRequestsPending oe.garageDeviceUUID = none ∧
      (∀ d, d ≠ oe.garageDeviceUUID →
        (exSt (sendFailed s corr none none) s).controlRequestsPending d = s.controlRequestsPending d) ∧
      (∀ k, k ≠ corr →
        (exSt (sendFailed s corr none none) s).requestsMessagesOrig k = s.requestsMessagesOrig k)) := by
  refine ⟨?_, ?_, ?_⟩
  · intro s m c1 c2 sid gd g pend st ex hType hDev hBind hGar hSelf hPay hPend
    unfold message
    refine ⟨?_, ?_, ?_, ?_⟩
    · simp [hType, hDev, hBind, hGar, hPay, hSelf, hPend, exSt,
        deleteTimer_controlRequestsPending, mapDel]
    · rcases hR : s.requestsMessagesOrig pend.messageOrig with _ | oe2 <;>
        simp [hType, hDev, hBind, hGar, hPay, hSelf, hPend, hR, exSt,
          deleteTimer_controlRequestsPending, deleteTimer_requestsMessagesOrig, mapDel]
    · intro d hd
      rcases hR : s.requestsMessagesOrig pend.messageOrig with _ | oe2 <;>
        simp [hType, hDev, hBind, hGar, hPay, hSelf, hPend, hR, hd, exSt,
          deleteTimer_controlRequestsPending, deleteTimer_requestsMessagesOrig, mapDel]
    · intro k hk
      rcases hR : s.requestsMessagesOrig pend.messageOrig with _ | oe2 <;>
        simp [hType, hDev, hBind, hGar, hPay, hSelf, hPend, hR, hk, exSt,
          deleteTimer_controlRequestsPending, deleteTimer_requestsMessagesOrig, mapDel]
  · intro s m c1 c2 oe hType hDest hCmdObj hNew hDone hProc hOrig
    unfold message
    refine ⟨?_, ?_, ?_, ?_⟩
    · rcases hP : s.controlRequestsPending oe.garageDeviceUUID with _ | pe <;>
        simp [hType, hDest, hCmdObj, hNew, hDone, hProc, hOrig, hP, exSt,
          deleteTimer_controlRequestsPending, deleteTimer_requestsMessagesOrig, mapDel]
    · rcases hP : s.controlRequestsPending oe.garageDeviceUUID with _ | pe <;>
        simp [hType, hDest, hCmdObj, hNew, hDone, hProc, hOrig, hP, exSt,
          deleteTimer_controlRequestsPending, deleteTimer_requestsMessagesOrig, mapDel]
    · intro d hd
      rcases hP : s.controlRequestsPending oe.garageDeviceUUID with _ | pe <;>
        simp [hType, hDest, hCmdObj, hNew, hDone, hProc, hOrig, hP, hd, exSt,
          deleteTimer_controlRequestsPending, deleteTimer_requestsMessagesOrig, mapDel]
    · intro k hk
      rcases hP : s.controlRequestsPending oe.garageDeviceUUID with _ | pe <;>
        simp [hType, hDest, hCmdObj, hNew, hDone, hProc, hOrig, hP, hk, exSt,
          deleteTimer_controlRequestsPending, deleteTimer_requestsMessagesOrig, mapDel]
  · intro s corr oe d0 hOrig hDev0
    unfold sendFailed
    refine ⟨?_, ?_, ?_, ?_⟩
    · rcases hP : s.controlRequestsPending oe.garageDeviceUUID with _ | pe <;>
        simp [hOrig, hDev0, hP, exSt, deleteTimer_controlRequestsPending,
          deleteTimer_requestsMessagesOrig, mapDel]
    · rcases hP : s.controlRequestsPending oe.garageDeviceUUID with _ | pe <;>
        simp [hOrig, hDev0, hP, exSt, deleteTimer_controlRequestsPending,
          deleteTimer_requestsMessagesOrig, mapDel]
    · intro d hd
      rcases hP : s.controlRequestsPending oe.garageDeviceUUID with _ | pe <;>
        simp [hOrig, hDev0, hP, hd, exSt, deleteTimer_controlRequestsPending,
          deleteTimer_requestsMessagesOrig, mapDel]
    · intro k hk
      rcases hP : s.controlRequestsPending oe.garageDeviceUUID with _ | pe <;>
        simp [hOrig, hDev0, hP, hk, exSt, deleteTimer_controlRequestsPending,
          deleteTimer_requestsMessagesOrig, mapDel]

/-- A failure acknowledgement from the actuator bus for the tracked
pulse-stop correlation id `corrA`. -/
def msgFailedAck : BusMessage :=
  { msgType := "cmd", msgStatus := "failed", msgDestination := "yombo.modules.garagedoor",
    msgOrigUUID := "corrA", msgUUID := "m-failack", msgStatusExtra := "device offline" }

/-- Witness instantiating all three resolution paths of the C4 theorem
on `statePending` (device `gd1`, correlation id `corrA`). -/
theorem claim_c4_resolution_cleans_both_maps_witness :
    (exSt (message statePending msgStatusClosed "x1" "x2") statePending).controlRequestsPending "gd1" = none ∧
    (exSt (message statePending msgStatusClosed "x1" "x2") statePending).requestsMessagesOrig "corrA" = none ∧
    (exSt (message statePending msgFailedAck "y1" "y2") statePending).requestsMessagesOrig "corrA" = none ∧
    (exSt (message statePending msgFailedAck "y1" "y2") statePending).controlRequestsPending "gd1" = none ∧
    (exSt (sendFailed statePending "corrA" none none) statePending).requestsMessagesOrig "corrA" = none ∧
    (exSt (sendFailed statePending "corrA" none none) statePending).controlRequestsPending "gd1" = none ∧
    (exSt (sendFailed statePending "corrA" none none) statePending).controlRequestsPending "gdOther" =
      statePending.controlRequestsPending "gdOther" := by
  obtain ⟨hA, hB, hC⟩ := claim_c4_resolution_cleans_both_maps
  have a := hA statePending msgStatusClosed "x1" "x2" "cs1" "gd1" garageG1
    ⟨origMsgA, "corrA"⟩ "closed" "xs" rfl rfl rfl rfl rfl rfl rfl
  have b := hB statePending msgFailedAck "y1" "y2" ⟨origMsgA, "gd1"⟩
    rfl rfl rfl (by decide) (by decide) (by decide) rfl
  have c := hC statePending "corrA" ⟨origMsgA, "gd1"⟩ "gd1" rfl rfl
  exact ⟨a.1, a.2.1, b.1, b.2.1, c.1, c.2.1, c.2.2.1 "gdOther" (by decide)⟩

/-- Claim C5: when the device's reconciled status already equals the
command's target, the handler returns AlreadySatisfied: it replies done
(with an idempotent status confirmation), emits zero actuator command
events, and creates no PendingRequest.  First conjunct: the `message`
new-command branch returns the untouched state with a single done
reply.  Second conjunct: the `_device_command_` hook replies done,
pushes the idempotent status confirmation via `_set_status`, and
touches neither pending map. -/
theorem claim_c5_already_satisfied_no_actuation :
    (∀ (s : ModState) (m : BusMessage) (c1 c2 : MsgId) (gd : DevId)
        (g : GarageData) (cobj : CmdObj),
      m.msgType = "cmd" → m.msgStatus = "new" → m.msgDestination = s.fullNameLower →
      m.deviceobj = some gd → s.garageDevices gd = some g → m.cmdobj = some cobj →
      cobj.cmdUUID ∈ s.garageCommands →
      s.controlRequestsPending g.device = none →
      cobj.cmd = (s.statuses g.device).status →
      message s m c1 c2 = .ok (s,
        [Emission.reply m.msgUUID "done"
          (s.labels g.device ++ " already " ++
            (if (s.statuses g.device).status = "open" then "open" else "closed") ++
            ", nothing to do.")
          (s.labels g.device ++ " already " ++
            (if (s.statuses g.device).status = "open" then "open" else "closed") ++
            ", nothing to do.")])) ∧
    (∀ (s : ModState) (dev : DevId) (rid : MsgId) (cmd : CmdObj) (g : GarageData),
      s.garageDevices dev = some g →
      s.control_requests_pending dev = none →
      (s.statuses g.closedDevice).machine_label = cmd.machine_label →
      exOk (_device_command_ s dev rid cmd) = true ∧
      exEm (_device_command_ s dev rid cmd) =
        [Emission.deviceCommandDone rid "Garage door already in requested position."] ∧
      (exSt (_device_command_ s dev rid cmd) s).control_requests_pending =
        s.control_requests_pending ∧
      (exSt (_device_command_ s dev rid cmd) s).controlRequestsPending =
        s.controlRequestsPending ∧
      (exSt (_device_command_ s dev rid cmd) s).requestsMessagesOrig =
        s.requestsMessagesOrig ∧
      ((exSt (_device_command_ s dev rid cmd) s).statuses dev).machine_status =
        (if cmd.machine_label = "open" then MStatus.num 1 else MStatus.num 0)) := by
  constructor
  · intro s m c1 c2 gd g cobj hType hNew hDest hDev hGar hCmd hKnown hPend hEq
    unfold message
    simp [hType, hNew, hDest, hDev, hGar, hCmd, hKnown, hPend, hEq]
  · intro s dev rid cmd g hGar hPend hEq
    unfold _device_command_
    refine ⟨?_, ?_, ?_, ?_, ?_, ?_⟩ <;>
      simp [hGar, hPend, hEq, exOk, exEm, exSt, _set_status, mapSet]

/-- Module state where `gd1`'s reconciled status is already `open`
(both the virtual device status and the closed sensor's label). -/
def stateSatisfied : ModState :=
  { garageCommands := ["cmd-open", "cmd-close"],
    garageDevices := fun d => if d = "gd1" then some garageG1 else none,
    statuses := fun d =>
      if d = "gd1" then { status := "open", machine_label := "open" }
      else if d = "cs1" then { machine_label := "open" } else {} }

/-- An "open" command on the bus for `gd1` while it is already open. -/
def msgNewSatisfied : BusMessage :=
  { msgType := "cmd", msgStatus := "new", msgDestination := "yombo.modules.garagedoor",
    msgUUID := "m-sat", deviceobj := some "gd1", cmdobj := some cmdOpen }

/-- Witness instantiating both already-satisfied paths of the C5
theorem: an `open` command on `gd1` while its status is already
`open`. -/
theorem claim_c5_already_satisfied_no_actuation_witness :
    message stateSatisfied msgNewSatisfied "z1" "z2" = .ok (stateSatisfied,
      [Emission.reply "m-sat" "done"
        (stateSatisfied.labels "gd1" ++ " already " ++
          (if (stateSatisfied.statuses "gd1").status = "open" then "open" else "closed") ++
          ", nothing to do.")
        (stateSatisfied.labels "gd1" ++ " already " ++
          (if (stateSatisfied.statuses "gd1").status = "open" then "open" else "closed") ++
          ", nothing to do.")]) ∧
    exOk (_device_command_ stateSatisfied "gd1" "r9" cmdOpen) = true ∧
    exEm (_device_command_ stateSatisfied "gd1" "r9" cmdOpen) =
      [Emission.deviceCommandDone "r9" "Garage door already in requested position."] ∧
    (exSt (_device_command_ stateSatisfied "gd1" "r9" cmdOpen) stateSatisfied).control_requests_pending =
      stateSatisfied.control_requests_pending ∧
    (exSt (_device_command_ stateSatisfied "gd1" "r9" cmdOpen) stateSatisfied).controlRequestsPending =
      stateSatisfied.controlRequestsPending ∧
    (exSt (_device_command_ stateSatisfied "gd1" "r9" cmdOpen) stateSatisfied).requestsMessagesOrig =
      stateSatisfied.requestsMessagesOrig ∧
    ((exSt (_device_command_ stateSatisfied "gd1" "r9" cmdOpen) stateSatisfied).statuses "gd1").machine_status =
      (if cmdOpen.machine_label = "open" then MStatus.num 1 else MStatus.num 0) := by
  obtain ⟨h1, h2⟩ := claim_c5_already_satisfied_no_actuation
  have a := h1 stateSatisfied msgNewSatisfied "z1" "z2" "gd1" garageG1 cmdOpen
    rfl rfl rfl rfl rfl rfl (by decide) rfl rfl
  have b := h2 stateSatisfied "gd1" "r9" cmdOpen garageG1 rfl rfl rfl
  exact ⟨a, b.1, b.2.1, b.2.2.1, b.2.2.2.1, b.2.2.2.2.1, b.2.2.2.2.2⟩

/-- A "processing" acknowledgement from the actuator bus for the
tracked pulse-stop correlation id `corrA`. -/
def msgProcessingAck : BusMessage :=
  { msgType := "cmd", msgStatus := "processing", msgDestination := "yombo.modules.garagedoor",
    msgOrigUUID := "corrA", msgUUID := "m-procack" }

/-- Claim C7 counterexample: in `statePending` the correlation id
`corrA` carries a 17 second `sendFailed` hard-timeout timer; after a
"processing" acknowledgement is processed, that timer has been
replaced by a fresh 60 second `sendFailed` timer, i.e. the
hard-timeout deadline was reset, contradicting the claim that a
processing acknowledgement affects only the slow notifier and never
reschedules the hard timeout. -/
theorem claim_c7_counterexample :
    statePending.pendingTimers "corrA" = some ⟨17, TimerAction.sendFailedAct, true⟩ ∧
    (exSt (message statePending msgProcessingAck "w1" "w2") statePending).pendingTimers "corrA" =
      some ⟨60, TimerAction.sendFailedAct, true⟩ := by
  exact ⟨rfl, rfl⟩

/-- Claim C7 (amended): a "processing" (non-final) actuator
acknowledgement for a tracked correlation id never resolves the
PendingRequest — both pending maps are untouched — and forwards a
single "processing" reply to the original caller; but it does not
leave the timers alone: it cancels whatever timer is currently armed
for the correlation id (the hard-timeout timer included) and arms a
fresh 60 second failure timer, resetting the hard-timeout deadline. -/
theorem claim_c7_processing_ack_forwards_and_rearms (s : ModState) (m : BusMessage)
    (c1 c2 : MsgId) (oe : OrigEntry) (cu : String)
    (hType : m.msgType = "cmd") (hDest : m.msgDestination = s.fullNameLower)
    (hCmdObj : m.cmdobj = none) (hStatus : m.msgStatus = "processing")
    (hOrig : s.requestsMessagesOrig m.msgOrigUUID = some oe)
    (hCu : oe.message.payloadCmdUUID = some cu) :
    exOk (message s m c1 c2) = true ∧
    exEm (message s m c1 c2) =
      [Emission.reply oe.message.msgUUID "processing"
        (Option.getD
          (if cu = "dhPt1CzzjDjEfTddtpiJSKKe" then some "opening garage"
           else if cu = "x8mXp46JIXkEdYFZ5lUEtw1L" then some "closing garage"
           else none)
          "Command sent to garage door controller, pending results.") ""] ∧
    (exSt (message s m c1 c2) s).controlRequestsPending = s.controlRequestsPending ∧
    (exSt (message s m c1 c2) s).requestsMessagesOrig = s.requestsMessagesOrig ∧
    (exSt (message s m c1 c2) s).pendingTimers m.msgOrigUUID =
      some ⟨60, TimerAction.sendFailedAct, true⟩ := by
  unfold message sendProcessing
  refine ⟨?_, ?_, ?_, ?_, ?_⟩ <;>
    simp [hType, hDest, hCmdObj, hStatus, hOrig, hCu, exOk, exEm, exSt,
      deleteTimer_controlRequestsPending, deleteTimer_requestsMessagesOrig, mapSet]

/-- Witness instantiating the amended C7 theorem on `statePending` with
the tracked correlation id `corrA` (a close command, so the forwarded
detail is "closing garage"). -/
theorem claim_c7_processing_ack_forwards_and_rearms_witness :
    exOk (message statePending msgProcessingAck "w1" "w2") = true ∧
    exEm (message statePending msgProcessingAck "w1" "w2") =
      [Emission.reply "orig-a" "processing"
        (Option.getD
          (if ("x8mXp46JIXkEdYFZ5lUEtw1L" : String) = "dhPt1CzzjDjEfTddtpiJSKKe" then some "opening garage"
           else if ("x8mXp46JIXkEdYFZ5lUEtw1L" : String) = "x8mXp46JIXkEdYFZ5lUEtw1L" then some "closing garage"
           else none)
          "Command sent to garage door controller, pending results.") ""] ∧
    (exSt (message statePending msgProcessingAck "w1" "w2") statePending).controlRequestsPending =
      statePending.controlRequestsPending ∧
    (exSt (message statePending msgProcessingAck "w1" "w2") statePending).requestsMessagesOrig =
      statePending.requestsMessagesOrig ∧
    (exSt (message statePending msgProcessingAck "w1" "w2") statePending).pendingTimers "corrA" =
      some ⟨60, TimerAction.sendFailedAct, true⟩ :=
  claim_c7_processing_ack_forwards_and_rearms statePending msgProcessingAck "w1" "w2"
    ⟨origMsgA, "gd1"⟩ "x8mXp46JIXkEdYFZ5lUEtw1L" rfl rfl rfl rfl rfl rfl

/-- Frame lemma: reloading a batch of devices none of which carries
device id `k` leaves `garageDevices k` unchanged. -/
theorem reload_untouched_id (vc : String → Bool) (D : String → Option DevId)
    (post : List DeviceVars) :
    ∀ (s : ModState) (k : DevId), (∀ dv2 ∈ post, dv2.device_id ≠ k) →
      (_reload_ vc D post s).garageDevices k = s.garageDevices k := by
  induction post with
  | nil => intro s k _; rfl
  | cons a t ih =>
    intro s k h
    have ha : a.device_id ≠ k := h a (List.mem_cons_self a t)
    have ht : ∀ dv2 ∈ t, dv2.device_id ≠ k := fun dv2 hm => h dv2 (List.mem_cons_of_mem a hm)
    show (_reload_ vc D t (reload_step vc D s a)).garageDevices k = s.garageDevices k
    rw [ih (reload_step vc D s a) k ht]
    unfold reload_step
    rcases hr : reload_device vc D a with _ | gd <;> simp [hr, mapSet, Ne.symm ha]

/-- The command-validation set used by the configuration fixtures. -/
def vcFix : String → Bool := fun c => c = "pulse_on" || c = "pulse_off"

/-- The gateway device lookup used by the configuration fixtures. -/
def devsFix : String → Option DevId := fun d => if d = "cs1" then some "cs1" else none

/-- A fully well-configured device row for `gd1`. -/
def dvGood : DeviceVars :=
  { device_id := "gd1", controlpulsestart := "pulse_on", controlpulseend := "pulse_off",
    controlpulsetime := Val.num 500, autoclosetime := Val.num 300, closeddevice := some "cs1",
    closedstateclosed := "closed", closedstateopened := "opened", controldevice := "ctl1" }

/-- The same row for a second device, except that its auto-close time
is the non-numeric string "abc". -/
def dvBadAuto : DeviceVars :=
  { dvGood with device_id := "gd9", autoclosetime := Val.str "abc" }

/-- Claim C9 counterexample: `dvBadAuto` differs from the registered
`dvGood` only in its device id and its non-numeric auto-close time —
a field of the optional auto-close family — yet `_reload_` skips the
device entirely (line 118-122 `continue`), where the claim says
optional auto-close fields degrade to fallbacks and never cause
exclusion. -/
theorem claim_c9_counterexample :
    (reload_device vcFix devsFix dvGood).isSome = true ∧
    reload_device vcFix devsFix dvBadAuto = none ∧
    dvBadAuto = { dvGood with device_id := "gd9", autoclosetime := Val.str "abc" } := by
  exact ⟨rfl, rfl, rfl⟩

/-- Claim C9 (amended): during configuration load a device is skipped
exactly when one of its required fields is invalid — unvalidatable
pulse-start or pulse-stop command, non-numeric pulse time,
non-positive pulse time, non-numeric auto-close time, or missing
closed sensor — and every other device in the same load whose own row
validates is registered regardless; the open sensor and the auto-close
disable/alert device families degrade to fallbacks without excluding
the device (they cannot make `reload_device` return `none`). -/
theorem claim_c9_skip_characterisation :
    (∀ (vc : String → Bool) (D : String → Option DevId) (dv : DeviceVars),
      reload_device vc D dv = none ↔ reload_skip_condition vc D dv = true) ∧
    (∀ (vc : String → Bool) (D : String → Option DevId) (pre post : List DeviceVars)
        (dv : DeviceVars) (s : ModState) (gd : GarageData),
      (∀ dv2 ∈ post, dv2.device_id ≠ dv.device_id) →
      reload_device vc D dv = some gd →
      (_reload_ vc D (pre ++ dv :: post) s).garageDevices dv.device_id = some gd) := by
  constructor
  · intro vc D dv
    unfold reload_device reload_skip_condition
    rcases h1 : vc dv.controlpulsestart <;> rcases h2 : vc dv.controlpulseend <;>
      rcases h3 : dv.controlpulsetime.toFloat with _ | t <;>
      rcases h4 : dv.autoclosetime.toFloat with _ | a <;>
      rcases h5 : dv.closeddevice.bind D with _ | cd <;>
      simp [h1, h2, h3, h4, h5]
  · intro vc D pre post dv s gd hpost hsome
    have hsplit : _reload_ vc D (pre ++ dv :: post) s =
        _reload_ vc D post (reload_step vc D (_reload_ vc D pre s) dv) := by
      unfold _reload_
      rw [List.foldl_append, List.foldl_cons]
    rw [hsplit, reload_untouched_id vc D post _ dv.device_id hpost]
    unfold reload_step
    simp [hsome, mapSet]

/-- Witness for the amended C9 theorem: the characterisation evaluated
on `dvBadAuto`, and a two-device load in which the malformed `dvBadAuto`
is skipped while the well-configured `dvGood` is registered. -/
theorem claim_c9_skip_characterisation_witness :
    (reload_device vcFix devsFix dvBadAuto = none ↔
      reload_skip_condition vcFix devsFix dvBadAuto = true) ∧
    (_reload_ vcFix devsFix [dvBadAuto, dvGood] {}).garageDevices "gd1" = some garageG1 := by
  obtain ⟨h1, h2⟩ := claim_c9_skip_characterisation
  exact ⟨h1 vcFix devsFix dvBadAuto,
    h2 vcFix devsFix [dvBadAuto] [] dvGood {} garageG1 (by simp) rfl⟩

/-- Claim C10: a command for a device id outside the managed registry
(`_device_command_`, lines 273-275), and on the message-bus path a
message carrying an unrecognized command id (384-386) or a device not
assigned to the module (389-391), is dropped: the handler returns with
no reply, no actuator command, and the module state it was given. -/
theorem claim_c10_unknown_targets_ignored :
    (∀ (s : ModState) (dev : DevId) (rid : MsgId) (cmd : CmdObj),
      s.garageDevices dev = none → _device_command_ s dev rid cmd = .ok (s, [])) ∧
    (∀ (s : ModState) (m : BusMessage) (c1 c2 : MsgId) (cobj : CmdObj),
      m.msgType = "cmd" → m.msgDestination = s.fullNameLower → m.cmdobj = some cobj →
      cobj.cmdUUID ∉ s.garageCommands →
      message s m c1 c2 = .ok (s, [])) ∧
    (∀ (s : ModState) (m : BusMessage) (c1 c2 : MsgId) (cobj : CmdObj) (d : DevId),
      m.msgType = "cmd" → m.msgDestination = s.fullNameLower → m.cmdobj = some cobj →
      cobj.cmdUUID ∈ s.garageCommands → m.deviceobj = some d → s.garageDevices d = none →
      message s m c1 c2 = .ok (s, [])) := by
  refine ⟨?_, ?_, ?_⟩
  · intro s dev rid cmd hGar
    unfold _device_command_
    simp [hGar]
  · intro s m c1 c2 cobj hType hDest hCmd hUnknown
    unfold message
    simp [hType, hDest, hCmd, hUnknown]
  · intro s m c1 c2 cobj d hType hDest hCmd hKnown hDev hGar
    unfold message
    simp [hType, hDest, hCmd, hKnown, hDev, hGar]

/-- A bus message whose command id is not one of the module's garage
commands. -/
def msgUnknownCmd : BusMessage :=
  { msgType := "cmd", msgStatus := "new", msgDestination := "yombo.modules.garagedoor",
    msgUUID := "m-badcmd", deviceobj := some "gd1",
    cmdobj := some { cmdUUID := "cmd-weird", cmd := "weird" } }

/-- A bus message commanding a device the module does not manage. -/
def msgUnknownDev : BusMessage :=
  { msgType := "cmd", msgStatus := "new", msgDestination := "yombo.modules.garagedoor",
    msgUUID := "m-baddev", deviceobj := some "gdX", cmdobj := some cmdOpen }

/-- Witness instantiating the three unknown-target paths of the C10
theorem on concrete states. -/
theorem claim_c10_unknown_targets_ignored_witness :
    _device_command_ stateC1 "gdX" "r7" cmdOpen = .ok (stateC1, []) ∧
    message stateC1 msgUnknownCmd "v1" "v2" = .ok (stateC1, []) ∧
    message stateC1 msgUnknownDev "v3" "v4" = .ok (stateC1, []) := by
  obtain ⟨h1, h2, h3⟩ := claim_c10_unknown_targets_ignored
  exact ⟨h1 stateC1 "gdX" "r7" cmdOpen rfl,
    h2 stateC1 msgUnknownCmd "v1" "v2" { cmdUUID := "cmd-weird", cmd := "weird" } rfl rfl rfl (by decide),
    h3 stateC1 msgUnknownDev "v3" "v4" cmdOpen "gdX" rfl rfl rfl (by decide) rfl rfl⟩

end GarageDoor
